import Mathlib

/-!
Shallow embedding of the shplit session controller (src/main.rs, src/config.rs).

The external livesplit engine, the filesystem, the file dialog and the config
store are capabilities outside the controller; they are abstracted as an `Env`
record of functions, and the controller code (`App::load_run`, the event match
inside `run_app`, `App::default`, the `timer_text` formatting in `ui`) is
translated statement by statement over that record.  A Rust `unwrap()` on an
`Err` value is a panic that terminates the process; it is modelled by the
`Outcome.fatal` constructor of the step result.  Config-save attempts and
`split_or_start` invocations are recorded in an effect trace so that claims
about "a save attempt is issued" are statable.
-/

namespace Shplit

/-- Opaque run produced by `livesplit::run::parser::parse_and_fix`; the
controller never inspects it, so it is modelled as a plain value. -/
abbrev Run := Nat

/-- Opaque `livesplit::Timer` handle; the controller only stores it and calls
`split_or_start` on it, so it is modelled as a plain value. -/
abbrev Timer := Nat

/-- Raw bytes of a run file, as returned by `std::fs::read`. -/
abbrev Bytes := List Nat

/-- The persisted record of src/config.rs: `struct Config { split_file: Option<String> }`. -/
structure Config where
  split_file : Option String
deriving DecidableEq

/-- The `Default` impl for `Config` in src/config.rs: `split_file = None`. -/
def Config.defaultConfig : Config := { split_file := none }

/-- Mirror of tui's `TableState` as used by the app: an optional selected row. -/
structure TableState where
  selected : Option Nat
deriving DecidableEq

/-- The controller state of src/main.rs: `struct App { timer, table_state, config }`. -/
structure App where
  timer : Option Timer
  table_state : TableState
  config : Config
deriving DecidableEq

/-- The environment: filesystem, livesplit engine, and config store, all
external capabilities the controller calls into.  `tryExists` models
`Path::try_exists` (which can itself fail), `readFile` models `std::fs::read`,
`parse_and_fix` models `livesplit::run::parser::parse_and_fix(bytes, Some(path))`,
`timerNew` models `livesplit::Timer::new`, `split_or_start` models
`Timer::split_or_start`, `configLoad` models `Config::load()` and `saveResult`
the outcome of `Config::save()`. -/
structure Env where
  tryExists : String → Except String Bool
  readFile : String → Except String Bytes
  parse_and_fix : Bytes → String → Except String Run
  timerNew : Run → Except String Timer
  split_or_start : Timer → Timer
  configLoad : Except String Config
  saveResult : Except String Unit

/-- Translation of `App::load_run` (src/main.rs lines 42-53).  Note the order
of operations in the source: when `try_exists` returns `Ok(true)` the function
first assigns `self.config.split_file = Some(path)`, and only then reads,
parses and constructs the timer; each later failure returns with `split_file`
already overwritten.  The returned pair is the mutated `self` together with
the `Result` value. -/
def load_run (env : Env) (app : App) (path : String) : App × Except String Unit :=
  match env.tryExists path with
  | .error e => (app, .error e)
  | .ok false => (app, .error "file not found")
  | .ok true =>
    let app := { app with config := { app.config with split_file := some path } }
    match env.readFile path with
    | .error e => (app, .error e)
    | .ok bytes =>
      match env.parse_and_fix bytes path with
      | .error e => (app, .error e)
      | .ok run =>
        match env.timerNew run with
        | .error e => (app, .error e)
        | .ok t => ({ app with timer := some t }, .ok ())

/-- The read-parse-construct pipeline of `load_run` after the existence check:
`std::fs::read`, then `parse_and_fix`, then `Timer::new`. -/
def pipelineTimer (env : Env) (path : String) : Except String Timer :=
  match env.readFile path with
  | .error e => .error e
  | .ok bytes =>
    match env.parse_and_fix bytes path with
    | .error e => .error e
    | .ok run => env.timerNew run

/-- The guard `path.try_exists().ok() == Some(true)` used at both event-loop
call sites (src/main.rs lines 125 and 139). -/
def tryExistsOkTrue (env : Env) (path : String) : Bool :=
  match env.tryExists path with
  | .ok true => true
  | _ => false

/-- Result of the nfde file dialog `show()`: a chosen path, or anything else
(cancel or error), which the source treats uniformly via `_ => continue`. -/
inductive DialogResult where
  | ok (path : String)
  | other
deriving DecidableEq

/-- The input events the controller distinguishes (src/main.rs lines 102-145).
`keyCtrlO` carries the dialog interaction outcome: `none` models `Nfd::new()`
failing (the `let Ok(..) else continue`), `some r` the dialog result.
`other` covers every ignored event (other keys, non-press key events, mouse,
resize, focus). -/
inductive Event where
  | keyCtrlC
  | keySpace
  | keyCtrlO (dialog : Option DialogResult)
  | paste (data : String)
  | other
deriving DecidableEq

/-- Observable side effects of one event-handling step: a config-save attempt
(`app.config.save()`), or an invocation of `timer.split_or_start()`. -/
inductive Eff where
  | save
  | split
deriving DecidableEq

/-- How one iteration of the event match ends: the loop continues, `run_app`
returns `Ok(())` (Ctrl+C), or the process panics via an `unwrap()` on `Err`. -/
inductive Outcome where
  | next
  | quit
  | fatal (msg : String)
deriving DecidableEq

/-- The controller state, effect trace, and outcome of handling one event. -/
structure StepOut where
  app : App
  effs : List Eff
  outcome : Outcome
deriving DecidableEq

/-- Translation of the event match inside `run_app` (src/main.rs lines 102-145).
Space calls `split_or_start` only when a timer is present.  Ctrl+O, on a
dialog path that exists, calls `load_run(..).ok()` (result discarded) and then
`config.save().unwrap()` — the save is attempted regardless of the load
result, and a save failure panics.  Paste, on a path that exists, calls
`load_run(..).unwrap()` — a load failure panics — and then `config.save().ok()`
(save failure discarded). -/
def step (env : Env) (app : App) (ev : Event) : StepOut :=
  match ev with
  | .keyCtrlC => ⟨app, [], .quit⟩
  | .keySpace =>
    match app.timer with
    | some t => ⟨{ app with timer := some (env.split_or_start t) }, [.split], .next⟩
    | none => ⟨app, [], .next⟩
  | .keyCtrlO dialog =>
    match dialog with
    | none => ⟨app, [], .next⟩
    | some .other => ⟨app, [], .next⟩
    | some (.ok path) =>
      if tryExistsOkTrue env path then
        let res := load_run env app path
        match env.saveResult with
        | .ok _ => ⟨res.1, [.save], .next⟩
        | .error e => ⟨res.1, [.save], .fatal e⟩
      else ⟨app, [], .next⟩
  | .paste data =>
    if tryExistsOkTrue env data then
      let res := load_run env app data
      match res.2 with
      | .ok _ => ⟨res.1, [.save], .next⟩
      | .error e => ⟨res.1, [], .fatal e⟩
    else ⟨app, [], .next⟩
  | .other => ⟨app, [], .next⟩

/-- The `Config::load().unwrap_or_default()` of `App::default`
(src/main.rs line 32): any load failure is replaced by the default record. -/
def loadedConfig (env : Env) : Config :=
  match env.configLoad with
  | .ok c => c
  | .error _ => Config.defaultConfig

/-- The struct literal built first in `App::default` (src/main.rs lines 29-33):
no timer, default table state, config from `Config::load().unwrap_or_default()`. -/
def initApp (env : Env) : App :=
  { timer := none, table_state := { selected := none }, config := loadedConfig env }

/-- Translation of `App::default` (src/main.rs lines 27-39): build the initial
struct, then, if `config.split_file` is present, attempt `load_run` on it with
the result discarded (`.ok()`).  No config save is performed here, and no
operation in this function can panic, so the result type carries no outcome:
construction always returns an `App`.  The second component is the effect
trace of construction (always empty: no save attempt exists on this path). -/
def App.default (env : Env) : App × List Eff :=
  let app := initApp env
  match app.config.split_file with
  | some p => ((load_run env app p).1, [])
  | none => (app, [])

/-- Zero-padded rendering of a number to at least two digits, as Rust's
format specifier with minimum width two and zero fill. -/
def fmt2 (n : Nat) : String :=
  if n < 10 then "0" ++ toString n else toString n

/-- Zero-padded rendering of a number to at least three digits, as Rust's
format specifier with minimum width three and zero fill. -/
def fmt3 (n : Nat) : String :=
  if n < 10 then "00" ++ toString n
  else if n < 100 then "0" ++ toString n
  else toString n

/-- Translation of the timer text built in `ui` (src/main.rs lines 198-205)
from the current attempt duration, here given in whole milliseconds (the
four rendered fields ignore sub-millisecond precision): whole hours, whole
minutes mod 60, whole seconds mod 60, millisecond part, padded 2/2/2/3. -/
def timer_text (ms : Nat) : String :=
  fmt2 (ms / 3600000) ++ ":" ++ fmt2 (ms / 60000 % 60) ++ ":" ++
    fmt2 (ms / 1000 % 60) ++ "." ++ fmt3 (ms % 1000)

/-- The implicit invariant of claim C10, as a boolean predicate: a present
timer implies a present `split_file`. -/
def timerImpliesFile (app : App) : Bool :=
  !app.timer.isSome || app.config.split_file.isSome

/-- Concrete environment: the file "new.lss" exists but reading it fails, and
the persisted config names "old.lss". -/
def envRead : Env :=
  { tryExists := fun p => if p = "new.lss" then .ok true else .ok false
  , readFile := fun _ => .error "io error"
  , parse_and_fix := fun _ _ => .error "unused"
  , timerNew := fun r => .ok r
  , split_or_start := fun t => t + 1
  , configLoad := .ok { split_file := some "old.lss" }
  , saveResult := .ok () }

/-- Concrete environment: the file "run.lss" exists, parses, and yields a
timer; it is also the persisted `split_file`; saving succeeds. -/
def envGood : Env :=
  { tryExists := fun p => if p = "run.lss" then .ok true else .ok false
  , readFile := fun _ => .ok [1]
  , parse_and_fix := fun _ _ => .ok 7
  , timerNew := fun r => .ok r
  , split_or_start := fun t => t + 1
  , configLoad := .ok { split_file := some "run.lss" }
  , saveResult := .ok () }

/-- Concrete environment: the file "bad.lss" exists but its contents fail to
parse; no config was persisted. -/
def envBad : Env :=
  { tryExists := fun p => if p = "bad.lss" then .ok true else .ok false
  , readFile := fun _ => .ok [0]
  , parse_and_fix := fun _ _ => .error "parse error"
  , timerNew := fun r => .ok r
  , split_or_start := fun t => t + 1
  , configLoad := .ok Config.defaultConfig
  , saveResult := .ok () }

/-- Concrete environment: "run.lss" exists and loads, but saving the config
fails (for instance the config directory is not writable). -/
def envSaveFail : Env :=
  { tryExists := fun p => if p = "run.lss" then .ok true else .ok false
  , readFile := fun _ => .ok [1]
  , parse_and_fix := fun _ _ => .ok 7
  , timerNew := fun r => .ok r
  , split_or_start := fun t => t + 1
  , configLoad := .ok Config.defaultConfig
  , saveResult := .error "permission denied" }

/-- Concrete environment: the persisted config names "gone.lss", a file that
no longer exists. -/
def envGone : Env :=
  { tryExists := fun _ => .ok false
  , readFile := fun _ => .error "unused"
  , parse_and_fix := fun _ _ => .error "unused"
  , timerNew := fun r => .ok r
  , split_or_start := fun t => t + 1
  , configLoad := .ok { split_file := some "gone.lss" }
  , saveResult := .ok () }

/-- Concrete environment: loading the config itself fails (missing or corrupt
config file). -/
def envNoCfg : Env :=
  { tryExists := fun _ => .ok false
  , readFile := fun _ => .error "unused"
  , parse_and_fix := fun _ _ => .error "unused"
  , timerNew := fun r => .ok r
  , split_or_start := fun t => t + 1
  , configLoad := .error "config missing"
  , saveResult := .ok () }

/-- When the existence guard is not passed, `load_run` fails and leaves the
whole state untouched. -/
theorem load_run_not_exists (env : Env) (app : App) (path : String)
    (h : tryExistsOkTrue env path = false) :
    (load_run env app path).1 = app ∧ (load_run env app path).2.isOk = false := by
  unfold tryExistsOkTrue at h
  unfold load_run
  cases henv : env.tryExists path with
  | error e => simp [henv, Except.isOk, Except.toBool]
  | ok b =>
    cases b with
    | false => simp [henv, Except.isOk, Except.toBool]
    | true => simp [henv] at h

/-- When the existence guard passes, `load_run` overwrites `split_file` with
the candidate path whatever happens afterwards. -/
theorem load_run_exists_split_file (env : Env) (app : App) (path : String)
    (h : tryExistsOkTrue env path = true) :
    (load_run env app path).1.config.split_file = some path := by
  unfold tryExistsOkTrue at h
  unfold load_run
  cases henv : env.tryExists path with
  | error e => simp [henv] at h
  | ok b =>
    cases b with
    | false => simp [henv] at h
    | true =>
      simp only [henv]
      cases hr : env.readFile path with
      | error e => simp [hr]
      | ok bytes =>
        simp only [hr]
        cases hp : env.parse_and_fix bytes path with
        | error e => simp [hp]
        | ok run =>
          simp only [hp]
          cases ht : env.timerNew run with
          | error e => simp [ht]
          | ok t => simp [ht]

/-- Every failing `load_run` leaves the timer exactly as it was. -/
theorem load_run_fail_timer (env : Env) (app : App) (path : String)
    (h : (load_run env app path).2.isOk = false) :
    (load_run env app path).1.timer = app.timer := by
  unfold load_run at h ⊢
  cases henv : env.tryExists path with
  | error e => simp [henv]
  | ok b =>
    cases b with
    | false => simp [henv]
    | true =>
      simp only [henv] at h ⊢
      cases hr : env.readFile path with
      | error e => simp [hr]
      | ok bytes =>
        simp only [hr] at h ⊢
        cases hp : env.parse_and_fix bytes path with
        | error e => simp [hp]
        | ok run =>
          simp only [hp] at h ⊢
          cases ht : env.timerNew run with
          | error e => simp [ht]
          | ok t => simp [ht, Except.isOk, Except.toBool] at h

/-- A successful `load_run` passed the existence guard and produced exactly
the state with the pipeline's timer installed and `split_file` set to the
candidate path; nothing else changed. -/
theorem load_run_ok_result (env : Env) (app : App) (path : String)
    (h : (load_run env app path).2.isOk = true) :
    tryExistsOkTrue env path = true ∧
    ∃ t, pipelineTimer env path = .ok t ∧
      (load_run env app path).1 =
        { app with timer := some t,
                   config := { app.config with split_file := some path } } := by
  unfold load_run at h ⊢
  unfold tryExistsOkTrue pipelineTimer
  cases henv : env.tryExists path with
  | error e => simp [henv, Except.isOk, Except.toBool] at h
  | ok b =>
    cases b with
    | false => simp [henv, Except.isOk, Except.toBool] at h
    | true =>
      simp only [henv] at h ⊢
      cases hr : env.readFile path with
      | error e => simp [hr, Except.isOk, Except.toBool] at h
      | ok bytes =>
        simp only [hr] at h ⊢
        cases hp : env.parse_and_fix bytes path with
        | error e => simp [hp, Except.isOk, Except.toBool] at h
        | ok run =>
          simp only [hp] at h ⊢
          cases ht : env.timerNew run with
          | error e => simp [ht, Except.isOk, Except.toBool] at h
          | ok t => exact ⟨trivial, t, by simp [ht], by simp [ht]⟩

/-- Every `load_run` call, whatever its result, preserves the invariant that
a present timer comes with a present `split_file`. -/
theorem load_run_preserves_inv (env : Env) (app : App) (path : String)
    (h : timerImpliesFile app = true) :
    timerImpliesFile (load_run env app path).1 = true := by
  cases hres : (load_run env app path).2.isOk with
  | true =>
    obtain ⟨hex, t, hpipe, happ⟩ := load_run_ok_result env app path hres
    simp [happ, timerImpliesFile]
  | false =>
    cases hex : tryExistsOkTrue env path with
    | false =>
      rw [(load_run_not_exists env app path hex).1]
      exact h
    | true =>
      have hsf := load_run_exists_split_file env app path hex
      simp [timerImpliesFile, hsf]

/-- C1: as stated the claim is false.  At the concrete input `envRead` /
`appOld` / path "new.lss" the file exists but reading it fails, so the load
attempt fails, yet `config.split_file` has been overwritten with the
candidate path, no longer equal to its previous value `some "old.lss"`. -/
theorem C1_counterexample :
    (load_run envRead (initApp envRead) "new.lss").2.isOk = false ∧
    (load_run envRead (initApp envRead) "new.lss").1.config.split_file ≠
      (initApp envRead).config.split_file := by
  decide

/-- C1 (amended): on every failed load attempt the timer is unchanged; and
`config.split_file` is unchanged when the existence guard is not passed
(non-existent path or failing existence check), but is overwritten with the
candidate path when the file exists and a later stage (read, parse, timer
construction) fails. -/
theorem C1_theorem (env : Env) (app : App) (path : String)
    (h : (load_run env app path).2.isOk = false) :
    (load_run env app path).1.timer = app.timer ∧
    (load_run env app path).1.config.split_file =
      (if tryExistsOkTrue env path = true then some path
       else app.config.split_file) := by
  refine ⟨load_run_fail_timer env app path h, ?_⟩
  cases hex : tryExistsOkTrue env path with
  | true =>
    rw [if_pos rfl]
    exact load_run_exists_split_file env app path hex
  | false =>
    rw [if_neg (by simp)]
    rw [(load_run_not_exists env app path hex).1]

/-- C1 witness: the amended statement applied at the concrete failing load of
`C1_counterexample`. -/
theorem C1_witness :
    (load_run envRead (initApp envRead) "new.lss").2.isOk = false ∧
    ((load_run envRead (initApp envRead) "new.lss").1.timer =
        (initApp envRead).timer ∧
      (load_run envRead (initApp envRead) "new.lss").1.config.split_file =
        (if tryExistsOkTrue envRead "new.lss" = true then some "new.lss"
         else (initApp envRead).config.split_file)) :=
  ⟨by decide, C1_theorem envRead (initApp envRead) "new.lss" (by decide)⟩

/-- C2: as stated the claim is false, because it includes the load performed
on initial construction.  In `envGood` the persisted `split_file` "run.lss"
loads successfully during `App::default` (the timer is installed), yet no
config-save attempt is issued there: the construction effect trace holds no
save. -/
theorem C2_counterexample :
    ¬ ((App.default envGood).1.timer.isSome = true →
       Eff.save ∈ (App.default envGood).2) := by
  decide

/-- C2 (amended): for every load triggered by an event (a pasted path or a
file-dialog selection) that succeeds, all three effects occur together: the
timer is replaced with the pipeline's new timer, `config.split_file` is set
to the candidate path, and a config-save attempt is issued.  The load
performed on initial construction replaces the timer and rewrites
`split_file` but issues no save attempt. -/
theorem C2_theorem (env : Env) (app : App) (path : String) (ev : Event)
    (hev : ev = .paste path ∨ ev = .keyCtrlO (some (.ok path)))
    (hok : (load_run env app path).2.isOk = true) :
    (step env app ev).app = (load_run env app path).1 ∧
    (∃ t, pipelineTimer env path = .ok t ∧
      (step env app ev).app.timer = some t) ∧
    (step env app ev).app.config.split_file = some path ∧
    Eff.save ∈ (step env app ev).effs := by
  obtain ⟨hex, t, hpipe, happ⟩ := load_run_ok_result env app path hok
  have hsave : (step env app ev).app = (load_run env app path).1 ∧
      Eff.save ∈ (step env app ev).effs := by
    rcases hev with rfl | rfl
    · cases hres : (load_run env app path).2 with
      | ok v => constructor <;> simp [step, hex, hres]
      | error e => rw [hres] at hok; simp [Except.isOk, Except.toBool] at hok
    · cases hsr : env.saveResult with
      | ok v => constructor <;> simp [step, hex, hsr]
      | error e => constructor <;> simp [step, hex, hsr]
  refine ⟨hsave.1, ⟨t, hpipe, ?_⟩, ?_, hsave.2⟩
  · rw [hsave.1, happ]
  · rw [hsave.1, happ]

/-- C2 witness: the amended statement applied to a paste of "run.lss" in
`envGood`, where the load succeeds. -/
theorem C2_witness :
    ((.paste "run.lss" : Event) = .paste "run.lss" ∨
      (.paste "run.lss" : Event) = .keyCtrlO (some (.ok "run.lss"))) ∧
    (load_run envGood (initApp envGood) "run.lss").2.isOk = true ∧
    ((step envGood (initApp envGood) (.paste "run.lss")).app =
        (load_run envGood (initApp envGood) "run.lss").1 ∧
      (∃ t, pipelineTimer envGood "run.lss" = .ok t ∧
        (step envGood (initApp envGood) (.paste "run.lss")).app.timer = some t) ∧
      (step envGood (initApp envGood) (.paste "run.lss")).app.config.split_file =
        some "run.lss" ∧
      Eff.save ∈ (step envGood (initApp envGood) (.paste "run.lss")).effs) :=
  ⟨Or.inl rfl, by decide,
    C2_theorem envGood (initApp envGood) "run.lss" (.paste "run.lss")
      (Or.inl rfl) (by decide)⟩

/-- C3: the claim describes the intended behaviour, but the code violates it.
At a paste event naming "bad.lss" — an existing file whose contents fail to
parse — the source calls `app.load_run(path).unwrap()`, and the `unwrap` on
the `Err` panics, terminating the process instead of continuing the loop (the
sibling dialog path discards the same error with `.ok()`).  Evaluated on the
model: the step outcome is the panic, and no save attempt is made. -/
theorem C3_theorem :
    (step envBad (initApp envBad) (.paste "bad.lss")).outcome =
      .fatal "parse error" ∧
    (step envBad (initApp envBad) (.paste "bad.lss")).effs = [] := by
  decide

/-- C4: the claim describes the intended behaviour, but the code violates it
on the dialog path.  After a file-dialog selection of "run.lss" (which exists
and loads), the source calls `app.config.save().unwrap()`; when saving fails
the `unwrap` panics and terminates the session, while the paste path discards
the same failure with `.ok()` and continues.  Evaluated on the model: the
dialog step outcome is the panic, while a paste step in the same environment
continues. -/
theorem C4_theorem :
    (step envSaveFail (initApp envSaveFail)
        (.keyCtrlO (some (.ok "run.lss")))).outcome =
      .fatal "permission denied" ∧
    (step envSaveFail (initApp envSaveFail) (.paste "run.lss")).outcome =
      .next := by
  decide

/-- C5: as stated the claim is false.  At the concrete input `envBad` the
dialog-selected path "bad.lss" exists but its load fails, yet the handling of
that event still issues a config-save attempt (the source calls
`app.config.save().unwrap()` unconditionally after `load_run(..).ok()`). -/
theorem C5_counterexample :
    (load_run envBad (initApp envBad) "bad.lss").2.isOk = false ∧
    Eff.save ∈
      (step envBad (initApp envBad) (.keyCtrlO (some (.ok "bad.lss")))).effs := by
  decide

/-- C5 (amended): on the dialog path a config-save attempt is issued after
every load attempt on an existing path, regardless of the load's success; on
the paste path no save attempt is issued after a failed load (the process
panics first) and exactly one is issued after a successful load. -/
theorem C5_theorem (env : Env) (app : App) (path : String) :
    (tryExistsOkTrue env path = true →
      (step env app (.keyCtrlO (some (.ok path)))).effs = [Eff.save]) ∧
    (tryExistsOkTrue env path = true →
      (load_run env app path).2.isOk = false →
      (step env app (.paste path)).effs = []) ∧
    (tryExistsOkTrue env path = true →
      (load_run env app path).2.isOk = true →
      (step env app (.paste path)).effs = [Eff.save]) := by
  refine ⟨fun hex => ?_, fun hex hfail => ?_, fun hex hok => ?_⟩
  · cases hsr : env.saveResult with
    | ok v => simp [step, hex, hsr]
    | error e => simp [step, hex, hsr]
  · cases hres : (load_run env app path).2 with
    | ok v => rw [hres] at hfail; simp [Except.isOk, Except.toBool] at hfail
    | error e => simp [step, hex, hres]
  · cases hres : (load_run env app path).2 with
    | ok v => simp [step, hex, hres]
    | error e => rw [hres] at hok; simp [Except.isOk, Except.toBool] at hok

/-- C5 witness: the amended statement applied in `envBad` at path "bad.lss",
whose load fails: the dialog step still saves, the paste step does not. -/
theorem C5_witness :
    (step envBad (initApp envBad) (.keyCtrlO (some (.ok "bad.lss")))).effs =
      [Eff.save] ∧
    (step envBad (initApp envBad) (.paste "bad.lss")).effs = [] :=
  ⟨(C5_theorem envBad (initApp envBad) "bad.lss").1 (by decide),
    (C5_theorem envBad (initApp envBad) "bad.lss").2.1 (by decide) (by decide)⟩

/-- C6: confirmed.  For every Space key press the loop continues; when a
timer is present it is replaced by `split_or_start` of itself and the trace
records exactly one `split_or_start` invocation, when none is present the
step is a no-op with an empty trace; the resulting state differs from the
previous one in the timer field at most, so table state and config are
untouched. -/
theorem C6_theorem (env : Env) (app : App) :
    (step env app .keySpace).outcome = .next ∧
    (step env app .keySpace).app =
      { app with timer := Option.map env.split_or_start app.timer } ∧
    (step env app .keySpace).effs =
      (match app.timer with | some _ => [Eff.split] | none => []) := by
  obtain ⟨tm, ts, cf⟩ := app
  cases tm <;> simp [step]

/-- C7: confirmed.  When the loaded config names a `split_file` whose load
attempt fails (for instance the file has been deleted), construction still
completes — `App.default` is a total function, every fallible call in the
source is discarded with `.ok()` or `unwrap_or_default()` — and the result is
the no-run state: no timer, and no side effects during construction. -/
theorem C7_theorem (env : Env) (p : String)
    (hc : (loadedConfig env).split_file = some p)
    (hfail : (load_run env (initApp env) p).2.isOk = false) :
    (App.default env).1.timer = none ∧ (App.default env).2 = [] := by
  have hd : App.default env = ((load_run env (initApp env) p).1, []) := by
    simp [App.default, initApp, hc]
  have ht := load_run_fail_timer env (initApp env) p hfail
  rw [hd]
  exact ⟨ht, rfl⟩

/-- C7 witness: the statement applied in `envGone`, whose persisted
`split_file` "gone.lss" no longer exists. -/
theorem C7_witness :
    (loadedConfig envGone).split_file = some "gone.lss" ∧
    (load_run envGone (initApp envGone) "gone.lss").2.isOk = false ∧
    ((App.default envGone).1.timer = none ∧ (App.default envGone).2 = []) :=
  ⟨by decide, by decide, C7_theorem envGone "gone.lss" (by decide) (by decide)⟩

/-- C8: confirmed.  When `Config::load()` fails, `unwrap_or_default()`
replaces the failure with the default record, so the controller starts with
`split_file` absent; the failure never reaches the caller (the model of
construction is a total function), and with no `split_file` no load is
attempted, so the state keeps the default config and no timer. -/
theorem C8_theorem (env : Env) (e : String) (h : env.configLoad = .error e) :
    loadedConfig env = Config.defaultConfig ∧
    (App.default env).1.config.split_file = none ∧
    (App.default env).1.timer = none := by
  have h1 : loadedConfig env = Config.defaultConfig := by
    simp [loadedConfig, h]
  have h2 : (initApp env).config.split_file = none := by
    simp [initApp, h1, Config.defaultConfig]
  have h3 : (App.default env).1 = initApp env := by
    simp [App.default, h2]
  exact ⟨h1, by rw [h3]; exact h2, by rw [h3]; rfl⟩

/-- C8 witness: the statement applied in `envNoCfg`, where loading the config
fails. -/
theorem C8_witness :
    loadedConfig envNoCfg = Config.defaultConfig ∧
    (App.default envNoCfg).1.config.split_file = none ∧
    (App.default envNoCfg).1.timer = none :=
  C8_theorem envNoCfg "config missing" rfl

/-- C9: confirmed.  For every attempt duration decomposed as whole hours,
minutes below sixty, seconds below sixty and milliseconds below a thousand,
`timer_text` renders exactly the four fields zero-padded to 2/2/2/3 digits
separated by ":", ":" and "."; and at 1 hour, 2 minutes, 3 seconds and 4
milliseconds it renders exactly "01:02:03.004". -/
theorem C9_theorem :
    (∀ hh mm ss xx : Nat, mm < 60 → ss < 60 → xx < 1000 →
      timer_text (((hh * 60 + mm) * 60 + ss) * 1000 + xx) =
        fmt2 hh ++ ":" ++ fmt2 mm ++ ":" ++ fmt2 ss ++ "." ++ fmt3 xx) ∧
    timer_text 3723004 = "01:02:03.004" := by
  constructor
  · intro hh mm ss xx hm hs hx
    have e1 : (((hh * 60 + mm) * 60 + ss) * 1000 + xx) / 3600000 = hh := by
      omega
    have e2 : (((hh * 60 + mm) * 60 + ss) * 1000 + xx) / 60000 % 60 = mm := by
      omega
    have e3 : (((hh * 60 + mm) * 60 + ss) * 1000 + xx) / 1000 % 60 = ss := by
      omega
    have e4 : (((hh * 60 + mm) * 60 + ss) * 1000 + xx) % 1000 = xx := by
      omega
    simp [timer_text, e1, e2, e3, e4]
  · rfl

/-- C9 witness: the general rendering shape applied at 1 hour, 2 minutes,
3 seconds, 4 milliseconds. -/
theorem C9_witness :
    timer_text (((1 * 60 + 2) * 60 + 3) * 1000 + 4) =
      fmt2 1 ++ ":" ++ fmt2 2 ++ ":" ++ fmt2 3 ++ "." ++ fmt3 4 :=
  C9_theorem.1 1 2 3 4 (by decide) (by decide) (by decide)

/-- C10: confirmed.  The invariant "a present timer implies a present
`split_file`" is preserved by the handling of every event (the only operation
that installs a timer, `load_run`, writes `split_file` before constructing
the timer, and no handler ever clears `split_file`), and it holds of the
state produced by construction. -/
theorem C10_theorem (env : Env) (app : App) (ev : Event)
    (h : timerImpliesFile app = true) :
    timerImpliesFile (step env app ev).app = true ∧
    timerImpliesFile (App.default env).1 = true := by
  constructor
  · cases ev with
    | keyCtrlC => simpa [step] using h
    | keySpace =>
      cases htm : app.timer with
      | none => simpa [step, htm] using h
      | some t =>
        have hsf : app.config.split_file.isSome = true := by
          simpa [timerImpliesFile, htm] using h
        simp [step, htm, timerImpliesFile, hsf]
    | keyCtrlO dialog =>
      cases dialog with
      | none => simpa [step] using h
      | some r =>
        cases r with
        | other => simpa [step] using h
        | ok path =>
          cases hex : tryExistsOkTrue env path with
          | false => simpa [step, hex] using h
          | true =>
            have hp := load_run_preserves_inv env app path h
            cases hsr : env.saveResult with
            | ok v => simpa [step, hex, hsr] using hp
            | error e => simpa [step, hex, hsr] using hp
    | paste data =>
      cases hex : tryExistsOkTrue env data with
      | false => simpa [step, hex] using h
      | true =>
        have hp := load_run_preserves_inv env app data h
        cases hres : (load_run env app data).2 with
        | ok v => simpa [step, hex, hres] using hp
        | error e => simpa [step, hex, hres] using hp
    | other => simpa [step] using h
  · have h0 : timerImpliesFile (initApp env) = true := by
      simp [timerImpliesFile, initApp]
    cases hc : (initApp env).config.split_file with
    | none => simpa [App.default, hc] using h0
    | some p =>
      have hp := load_run_preserves_inv env (initApp env) p h0
      simpa [App.default, hc] using hp

/-- C10 witness: the invariant statement applied in `envGood` to the freshly
constructed state handling a Space key press. -/
theorem C10_witness :
    timerImpliesFile (step envGood (initApp envGood) .keySpace).app = true ∧
    timerImpliesFile (App.default envGood).1 = true :=
  C10_theorem envGood (initApp envGood) .keySpace (by decide)

end Shplit
